import Mathlib

/-!
Shallow embedding of the Cliff-Walking reinforcement-learning script
(`13CliffWalk_Ch13.py`): the 4x12 grid environment with its precomputed
transition table, the episode replay pool, the one-hot state encoding,
and the pure numeric cores of the REINFORCE and actor-critic updates.
Definitions are translated directly from the Python source; theorems check
the specified properties against them.
-/

set_option autoImplicit false

namespace CliffWalk

/-- Grid rows: `self.shape = (4, 12)`. -/
def shapeRows : Nat := 4

/-- Grid columns: `self.shape = (4, 12)`. -/
def shapeCols : Nat := 12

/-- Cliff membership: `self.cliff = np.zeros(self.shape); self.cliff[-1, 1:-1] = 1`,
i.e. the last row, columns `1` through `shapeCols - 2`. -/
def cliff (i j : Nat) : Bool :=
  decide (i = shapeRows - 1) && decide (1 ≤ j) && decide (j ≤ shapeCols - 2)

/-- The `actions` dictionary mapping action letters to indices:
`{'U': 0, 'D': 1, 'L': 2, 'R': 3}`; any other key raises `KeyError`,
modelled as `none`. -/
def actions : Char → Option Nat
  | 'U' => some 0
  | 'D' => some 1
  | 'L' => some 2
  | 'R' => some 3
  | _ => none

/-- The `action2shift` dictionary `{0: [-1,0], 1: [1,0], 2: [0,-1], 3: [0,1]}`;
a key outside `0..3` raises `KeyError`, modelled as `none`. -/
def action2shift : Nat → Option (Int × Int)
  | 0 => some (-1, 0)
  | 1 => some (1, 0)
  | 2 => some (0, -1)
  | 3 => some (0, 1)
  | _ => none

/-- Clamp a shifted coordinate into `[0, hi]`:
`new = max(new, 0); new = min(new, hi)`.  The value is nonnegative after the
`max`, so returning a `Nat` via `toNat` is exact. -/
def clampIndex (x : Int) (hi : Nat) : Nat :=
  min (max x 0).toNat hi

/-- The `(new position, reward, terminate)` triple returned by
`_cal_new_position_`.  Rewards in the source are the exact floats
`-1.`, `-100.`, `0.`, represented as integers. -/
structure Outcome where
  pos : Nat × Nat
  reward : Int
  term : Bool
deriving Repr, DecidableEq

/-- `_cal_new_position_(old_pos, action)`: shift and clamp the position, then
two sequential overriding checks on the OLD position — the cliff check sets
reward `-100`, next position `(3, 0)`, non-terminal; the goal check (applied
after, hence overriding) sets terminal with reward `0` at the goal.  The
nested `if` with the goal case first is the sequential-override semantics of
the source's two consecutive `if` statements. -/
def calNewPosition (oldPos : Nat × Nat) (action : Nat) : Option Outcome :=
  match action2shift action with
  | none => none
  | some shift =>
      let clamped : Nat × Nat :=
        (clampIndex ((oldPos.1 : Int) + shift.1) (shapeRows - 1),
         clampIndex ((oldPos.2 : Int) + shift.2) (shapeCols - 1))
      some (if oldPos.1 = shapeRows - 1 ∧ oldPos.2 = shapeCols - 1 then
              { pos := (shapeRows - 1, shapeCols - 1), reward := 0, term := true }
            else if cliff oldPos.1 oldPos.2 then
              { pos := (shapeRows - 1, 0), reward := -100, term := false }
            else
              { pos := clamped, reward := -1, term := false })

/-- `_build_transmit_tensor_`: a row-major nested list with, at `[i][j][a]`,
`_cal_new_position_((i, j), a)` for `i < 4`, `j < 12`, `a < 4`. -/
def buildTransmitTensor : List (List (List (Option Outcome))) :=
  (List.range shapeRows).map fun i =>
    (List.range shapeCols).map fun j =>
      (List.range 4).map fun a => calNewPosition (i, j) a

/-- Indexing `transmit_tensor[i][j][a]`; an out-of-range index (an
`IndexError` in the source) is `none`, and the stored entry is flattened
with `join`. -/
def lookupTransition (t : List (List (List (Option Outcome)))) (i j a : Nat) :
    Option Outcome :=
  ((t[i]?.bind fun row => row[j]?).bind fun cell => (cell[a]?).join)

/-- The environment's mutable state: the current position `self.pos` and the
transition table `self.transmit_tensor` built at construction. -/
structure Env where
  pos : Nat × Nat
  transmit : List (List (List (Option Outcome)))
deriving Repr, DecidableEq

/-- `CliffWalking.__init__`: position starts at the lower-left corner
`(shape[0] - 1, 0)` and the transition table is precomputed once. -/
def initEnv : Env :=
  { pos := (shapeRows - 1, 0), transmit := buildTransmitTensor }

/-- `reset()`: set the position back to `(shape[0] - 1, 0)` and return it. -/
def Env.reset (env : Env) : (Nat × Nat) × Env :=
  ((shapeRows - 1, 0), { env with pos := (shapeRows - 1, 0) })

/-- `take_action`'s argument: the source dispatches on
`isinstance(action, str)`, accepting either an action letter or an index. -/
inductive ActionInput where
  | str (c : Char)
  | idx (a : Nat)
deriving Repr, DecidableEq

/-- The `isinstance(action, str)` dispatch in `take_action`: a string action
is resolved through the `actions` dictionary, an integer is used directly. -/
def resolveAction : ActionInput → Option Nat
  | .str c => actions c
  | .idx a => some a

/-- `take_action(action)`: resolve a string action through the `actions`
dictionary, look the transition up in the table at the current position, then
assign the new position into `self.pos` and return the looked-up triple.
A dictionary `KeyError` or table `IndexError` is `none`. -/
def Env.takeAction (env : Env) (action : ActionInput) : Option (Outcome × Env) :=
  match resolveAction action with
  | none => none
  | some k =>
      match lookupTransition env.transmit env.pos.1 env.pos.2 k with
      | none => none
      | some out => some (out, { env with pos := out.pos })

/-- One call of the environment's mutating interface: either `take_action`
(with a string or integer action) or `reset`. -/
inductive Op where
  | act (a : ActionInput)
  | reset
deriving Repr, DecidableEq

/-- Run one interface call, keeping the updated environment; a raised
dictionary/index error aborts (`none`). -/
def runOp (env : Env) : Op → Option Env
  | .act a => (env.takeAction a).map (fun r => r.2)
  | .reset => some (env.reset).2

/-- Run a sequence of interface calls from a given environment state. -/
def runOps (env : Env) : List Op → Option Env
  | [] => some env
  | op :: rest =>
      match runOp env op with
      | none => none
      | some e => runOps e rest

/-- The position invariant: inside the 4x12 grid. -/
def posInBounds (p : Nat × Nat) : Prop :=
  p.1 < shapeRows ∧ p.2 < shapeCols

instance (p : Nat × Nat) : Decidable (posInBounds p) := by
  unfold posInBounds; infer_instance

/-- A record of the five components of a `Transition` namedtuple:
`('state', 'next_state', 'action', 'reward', 'mask')`, with the field types
abstract (the script stores tensors, floats and ints there). -/
structure Trans (σ α ρ μ : Type) where
  state : σ
  next_state : σ
  action : α
  reward : ρ
  mask : μ
deriving Repr, DecidableEq

/-- `ReplayPool`: a deque of transitions, in insertion order. -/
structure ReplayPool (σ α ρ μ : Type) where
  memory : List (Trans σ α ρ μ)
deriving Repr, DecidableEq

/-- `ReplayPool.__init__`: an empty deque. -/
def ReplayPool.init (σ α ρ μ : Type) : ReplayPool σ α ρ μ := ⟨[]⟩

/-- `push(state, next_state, action, reward, mask)`: append a transition. -/
def ReplayPool.push {σ α ρ μ : Type} (p : ReplayPool σ α ρ μ)
    (state next_state : σ) (action : α) (reward : ρ) (mask : μ) :
    ReplayPool σ α ρ μ :=
  ⟨p.memory ++ [⟨state, next_state, action, reward, mask⟩]⟩

/-- `pop_all()`: `Transition(*zip(*memory))` transposes the stored
transitions into five parallel sequences.  The deque itself is only read,
never reassigned or popped, so the pool after the call is returned unchanged.
On an empty deque `Transition(*zip())` raises a `TypeError` (missing
arguments), modelled as `none`. -/
def ReplayPool.pop_all {σ α ρ μ : Type} (p : ReplayPool σ α ρ μ) :
    Option ((List σ × List σ × List α × List ρ × List μ) × ReplayPool σ α ρ μ) :=
  if p.memory.isEmpty then none
  else some ((p.memory.map Trans.state, p.memory.map Trans.next_state,
              p.memory.map Trans.action, p.memory.map Trans.reward,
              p.memory.map Trans.mask), p)

/-- `reset()`: replace the deque with a fresh empty one. -/
def ReplayPool.reset {σ α ρ μ : Type} (_ : ReplayPool σ α ρ μ) :
    ReplayPool σ α ρ μ :=
  ⟨[]⟩

/-- `__len__`: the length of the deque. -/
def ReplayPool.len {σ α ρ μ : Type} (p : ReplayPool σ α ρ μ) : Nat :=
  p.memory.length

/-- `convert_state2onehot(state, state_dim=48)`: a zero vector of length
`state_dim` with entry `state[0] * 5 + state[1]` set to `1.`; an index at or
beyond `state_dim` would raise an `IndexError`, modelled as `none`.  Entries
are exact small floats, represented in `ℚ`. -/
def convert_state2onehot (state : Nat × Nat) (state_dim : Nat := 48) :
    Option (List ℚ) :=
  let idx := state.1 * 5 + state.2
  if idx < state_dim then some ((List.replicate state_dim (0 : ℚ)).set idx 1)
  else none

/-- The backward accumulation in `REINFORCE.train_model`:
`running_return = rewards[t] + gamma * running_return * masks[t]` for `t`
from the last index down to `0`, recording `returns[t] = running_return`.
Rewards and masks are paired positionally (the source indexes both by the
same `t`). -/
def computeReturns (gamma : ℚ) (rewards masks : List ℚ) : List ℚ :=
  ((rewards.zip masks).foldr
    (fun rm acc =>
      let r := rm.1 + gamma * acc.1 * rm.2
      (r, r :: acc.2))
    ((0 : ℚ), ([] : List ℚ))).2

/-- The TD target of `ActorCritic.train_model`:
`target_plus_value = reward + mask * gamma * next_value[0]`. -/
def targetPlusValue (gamma reward mask next_value : ℚ) : ℚ :=
  reward + mask * gamma * next_value

/-- The dimensions stored by `REINFORCE.__init__(input_dim, output_dim,
hidden_dim=256)`: two linear layers `input_dim → hidden_dim → output_dim`. -/
structure REINFORCEConfig where
  input_dim : Nat
  output_dim : Nat
  hidden_dim : Nat
deriving Repr, DecidableEq

/-- `REINFORCE.__init__`: stores the dimensions and builds the two layers.
The body performs no validation of its arguments, so construction always
succeeds; the `Except` codomain records where an invalid-configuration error
would be raised if one existed. -/
def REINFORCE.init (input_dim output_dim : Nat) (hidden_dim : Nat := 256) :
    Except String REINFORCEConfig :=
  Except.ok ⟨input_dim, output_dim, hidden_dim⟩

/-- The dimensions stored by `ActorCritic.__init__(input_dim, output_dim,
hidden_dim=20)`: a shared hidden layer and two heads. -/
structure ActorCriticConfig where
  input_dim : Nat
  output_dim : Nat
  hidden_dim : Nat
deriving Repr, DecidableEq

/-- `ActorCritic.__init__`: stores the dimensions and builds the layers,
with no validation of its arguments; construction always succeeds. -/
def ActorCritic.init (input_dim output_dim : Nat) (hidden_dim : Nat := 20) :
    Except String ActorCriticConfig :=
  Except.ok ⟨input_dim, output_dim, hidden_dim⟩

lemma action2shift_eq_none (a : Nat) (h : 4 ≤ a) : action2shift a = none := by
  match a, h with
  | (n + 4), _ => rfl

lemma clampIndex_le (x : Int) (hi : Nat) : clampIndex x hi ≤ hi :=
  Nat.min_le_right _ _

lemma calNewPosition_pos_bounds (p : Nat × Nat) (a : Nat) (out : Outcome)
    (h : calNewPosition p a = some out) :
    posInBounds out.pos := by
  unfold calNewPosition at h
  cases hs : action2shift a with
  | none => rw [hs] at h; exact Option.noConfusion h
  | some shift =>
      rw [hs] at h
      injection h with h
      subst h
      split
      · decide
      · split
        · decide
        · refine ⟨?_, ?_⟩
          · show clampIndex ((p.1 : Int) + shift.1) (shapeRows - 1) < shapeRows
            have hle := clampIndex_le ((p.1 : Int) + shift.1) (shapeRows - 1)
            unfold shapeRows at hle ⊢
            omega
          · show clampIndex ((p.2 : Int) + shift.2) (shapeCols - 1) < shapeCols
            have hle := clampIndex_le ((p.2 : Int) + shift.2) (shapeCols - 1)
            unfold shapeCols at hle ⊢
            omega

lemma lookupTransition_build (i j a : Nat) (hi : i < shapeRows) (hj : j < shapeCols) :
    lookupTransition buildTransmitTensor i j a = calNewPosition (i, j) a := by
  have h1 : buildTransmitTensor[i]? =
      some ((List.range shapeCols).map fun j =>
        (List.range 4).map fun a => calNewPosition (i, j) a) := by
    rw [buildTransmitTensor, List.getElem?_map, List.getElem?_range hi]
    rfl
  have h2 : ((List.range shapeCols).map fun j =>
      (List.range 4).map fun a => calNewPosition (i, j) a)[j]? =
      some ((List.range 4).map fun a => calNewPosition (i, j) a) := by
    rw [List.getElem?_map, List.getElem?_range hj]
    rfl
  by_cases ha : a < 4
  · have h3 : ((List.range 4).map fun a => calNewPosition (i, j) a)[a]? =
        some (calNewPosition (i, j) a) := by
      rw [List.getElem?_map, List.getElem?_range ha]
      rfl
    rw [lookupTransition, h1, Option.some_bind, h2, Option.some_bind, h3]
    rfl
  · have h3 : ((List.range 4).map fun a => calNewPosition (i, j) a)[a]? =
        (none : Option (Option Outcome)) := by
      apply List.getElem?_eq_none
      simp only [List.length_map, List.length_range]
      omega
    have h4 : calNewPosition (i, j) a = none := by
      unfold calNewPosition
      rw [action2shift_eq_none a (by omega)]
    rw [lookupTransition, h1, Option.some_bind, h2, Option.some_bind, h3, h4]
    rfl

lemma lookupTransition_build_some (i j a : Nat) (out : Outcome)
    (h : lookupTransition buildTransmitTensor i j a = some out) :
    calNewPosition (i, j) a = some out ∧ i < shapeRows ∧ j < shapeCols := by
  by_cases hi : i < shapeRows
  · by_cases hj : j < shapeCols
    · exact ⟨(lookupTransition_build i j a hi hj).symm.trans h, hi, hj⟩
    · exfalso
      have h1 : buildTransmitTensor[i]? =
          some ((List.range shapeCols).map fun j =>
            (List.range 4).map fun a => calNewPosition (i, j) a) := by
        rw [buildTransmitTensor, List.getElem?_map, List.getElem?_range hi]
        rfl
      have h2 : ((List.range shapeCols).map fun j =>
          (List.range 4).map fun a => calNewPosition (i, j) a)[j]? =
          (none : Option (List (Option Outcome))) := by
        apply List.getElem?_eq_none
        simp only [List.length_map, List.length_range]
        omega
      rw [lookupTransition, h1, Option.some_bind, h2, Option.none_bind] at h
      exact Option.noConfusion h
  · exfalso
    have h1 : buildTransmitTensor[i]? =
        (none : Option (List (List (Option Outcome)))) := by
      apply List.getElem?_eq_none
      simp only [buildTransmitTensor, List.length_map, List.length_range]
      omega
    rw [lookupTransition, h1, Option.none_bind, Option.none_bind] at h
    exact Option.noConfusion h

lemma takeAction_some_elim (env : Env) (a : ActionInput) (out : Outcome) (e : Env)
    (h : env.takeAction a = some (out, e)) :
    e = { env with pos := out.pos } ∧
    ∃ k, lookupTransition env.transmit env.pos.1 env.pos.2 k = some out := by
  unfold Env.takeAction at h
  split at h
  · exact Option.noConfusion h
  · rename_i k hk
    split at h
    · exact Option.noConfusion h
    · rename_i o hl
      injection h with h
      injection h with h1 h2
      subst h1
      subst h2
      exact ⟨rfl, k, hl⟩

lemma runOp_transmit (env e : Env) (op : Op) (h : runOp env op = some e) :
    e.transmit = env.transmit := by
  cases op with
  | reset =>
      simp only [runOp, Env.reset] at h
      injection h with h
      subst h
      rfl
  | act a =>
      simp only [runOp] at h
      cases hta : env.takeAction a with
      | none => rw [hta] at h; exact Option.noConfusion h
      | some pr =>
          obtain ⟨out, e2⟩ := pr
          rw [hta, Option.map_some'] at h
          injection h with h
          subst h
          show e2.transmit = env.transmit
          rw [(takeAction_some_elim env a out e2 hta).1]

lemma runOps_transmit (ops : List Op) (env env' : Env)
    (h : runOps env ops = some env') :
    env'.transmit = env.transmit := by
  induction ops generalizing env with
  | nil =>
      simp only [runOps] at h
      injection h with h
      subst h
      rfl
  | cons op rest ih =>
      simp only [runOps] at h
      split at h
      · exact Option.noConfusion h
      · rename_i e ho
        exact (ih e h).trans (runOp_transmit env e op ho)

lemma runOp_preserves (env e : Env) (op : Op)
    (ht : env.transmit = buildTransmitTensor)
    (h : runOp env op = some e) :
    e.transmit = buildTransmitTensor ∧ posInBounds e.pos := by
  cases op with
  | reset =>
      simp only [runOp, Env.reset] at h
      injection h with h
      subst h
      refine ⟨ht, ?_⟩
      show posInBounds (shapeRows - 1, 0)
      decide
  | act a =>
      simp only [runOp] at h
      cases hta : env.takeAction a with
      | none => rw [hta] at h; exact Option.noConfusion h
      | some pr =>
          obtain ⟨out, e2⟩ := pr
          rw [hta, Option.map_some'] at h
          injection h with h
          subst h
          obtain ⟨he, k, hl⟩ := takeAction_some_elim env a out e2 hta
          rw [ht] at hl
          obtain ⟨hcal, _, _⟩ :=
            lookupTransition_build_some env.pos.1 env.pos.2 k out hl
          have hb := calNewPosition_pos_bounds (env.pos.1, env.pos.2) k out hcal
          subst he
          exact ⟨ht, hb⟩

lemma runOps_preserves (ops : List Op) (env env' : Env)
    (ht : env.transmit = buildTransmitTensor)
    (hp : posInBounds env.pos)
    (h : runOps env ops = some env') :
    env'.transmit = buildTransmitTensor ∧ posInBounds env'.pos := by
  induction ops generalizing env with
  | nil =>
      simp only [runOps] at h
      injection h with h
      subst h
      exact ⟨ht, hp⟩
  | cons op rest ih =>
      simp only [runOps] at h
      split at h
      · exact Option.noConfusion h
      · rename_i e ho
        obtain ⟨ht2, hp2⟩ := runOp_preserves env e op ht ho
        exact ih e ht2 hp2 h

end CliffWalk

example : CliffWalk.calNewPosition (3, 1) 0 =
    some { pos := (3, 0), reward := -100, term := false } := by decide

example : CliffWalk.calNewPosition (3, 11) 2 =
    some { pos := (3, 11), reward := 0, term := true } := by decide

example : CliffWalk.calNewPosition (0, 0) 0 =
    some { pos := (0, 0), reward := -1, term := false } := by decide

example : (CliffWalk.initEnv.takeAction (.str 'R')).map (fun r => r.1) =
    some { pos := (3, 1), reward := -1, term := false } := by decide

/-- Claim C1 (violated by the code): `convert_state2onehot` computes the
one-hot index as `state[0] * 5 + state[1]`, so for the 4x12 grid the distinct
positions `(0, 5)` and `(1, 0)` both map to index `5` and receive identical
one-hot vectors: the encoding is not injective over the 48 cells. -/
theorem convert_state2onehot_collision :
    CliffWalk.convert_state2onehot (0, 5) 48 =
      CliffWalk.convert_state2onehot (1, 0) 48 ∧
    ((0, 5) : Nat × Nat) ≠ (1, 0) := by
  exact ⟨rfl, by decide⟩

/-- Claim C2 (counterexample): a pool holding one pushed transition returns
all of it from `pop_all`, yet a subsequent length query returns `1`, not `0`
— the buffer is NOT cleared by `pop_all`. -/
theorem pop_all_not_clearing_counterexample :
    ((CliffWalk.ReplayPool.init Nat Nat Nat Nat).push 0 1 2 3 4).pop_all =
      some (([0], [1], [2], [3], [4]),
        (CliffWalk.ReplayPool.init Nat Nat Nat Nat).push 0 1 2 3 4) ∧
    ¬ (((CliffWalk.ReplayPool.init Nat Nat Nat Nat).push 0 1 2 3 4).pop_all.map
        (fun r => r.2.len) = some 0) := by
  constructor
  · rfl
  · decide

/-- Claim C2 (amended): `pop_all` returns all accumulated transitions as the
five parallel sequences and leaves the pool exactly as it was, so a
subsequent length query returns the pre-call count; only `reset` clears. -/
theorem pop_all_returns_all_and_preserves_pool {σ α ρ μ : Type}
    (p p' : CliffWalk.ReplayPool σ α ρ μ)
    (seqs : List σ × List σ × List α × List ρ × List μ)
    (h : p.pop_all = some (seqs, p')) :
    seqs = (p.memory.map CliffWalk.Trans.state,
            p.memory.map CliffWalk.Trans.next_state,
            p.memory.map CliffWalk.Trans.action,
            p.memory.map CliffWalk.Trans.reward,
            p.memory.map CliffWalk.Trans.mask) ∧
    p' = p ∧ p'.len = p.len ∧ p.reset.len = 0 := by
  unfold CliffWalk.ReplayPool.pop_all at h
  split at h
  · exact Option.noConfusion h
  · injection h with h
    injection h with h1 h2
    subst h1
    subst h2
    exact ⟨rfl, rfl, rfl, rfl⟩

/-- Witness for the amended C2 at a concrete one-element pool. -/
theorem pop_all_returns_all_and_preserves_pool_witness :
    (([0], [1], [2], [3], [4]) :
        List Nat × List Nat × List Nat × List Nat × List Nat) =
      (([⟨0, 1, 2, 3, 4⟩] : List (CliffWalk.Trans Nat Nat Nat Nat)).map
          CliffWalk.Trans.state,
        ([⟨0, 1, 2, 3, 4⟩] : List (CliffWalk.Trans Nat Nat Nat Nat)).map
          CliffWalk.Trans.next_state,
        ([⟨0, 1, 2, 3, 4⟩] : List (CliffWalk.Trans Nat Nat Nat Nat)).map
          CliffWalk.Trans.action,
        ([⟨0, 1, 2, 3, 4⟩] : List (CliffWalk.Trans Nat Nat Nat Nat)).map
          CliffWalk.Trans.reward,
        ([⟨0, 1, 2, 3, 4⟩] : List (CliffWalk.Trans Nat Nat Nat Nat)).map
          CliffWalk.Trans.mask) ∧
    (⟨[⟨0, 1, 2, 3, 4⟩]⟩ : CliffWalk.ReplayPool Nat Nat Nat Nat) =
      ⟨[⟨0, 1, 2, 3, 4⟩]⟩ ∧
    (⟨[⟨0, 1, 2, 3, 4⟩]⟩ : CliffWalk.ReplayPool Nat Nat Nat Nat).len =
      (⟨[⟨0, 1, 2, 3, 4⟩]⟩ : CliffWalk.ReplayPool Nat Nat Nat Nat).len ∧
    (⟨[⟨0, 1, 2, 3, 4⟩]⟩ : CliffWalk.ReplayPool Nat Nat Nat Nat).reset.len = 0 :=
  pop_all_returns_all_and_preserves_pool ⟨[⟨0, 1, 2, 3, 4⟩]⟩ ⟨[⟨0, 1, 2, 3, 4⟩]⟩
    ([0], [1], [2], [3], [4]) rfl

/-- Claim C3 (counterexample): constructing a network with zero hidden width
succeeds and yields the stored dimensions — no invalid-configuration error is
raised. -/
theorem zero_hidden_width_constructs_ok :
    CliffWalk.REINFORCE.init 48 4 0 = Except.ok ⟨48, 4, 0⟩ ∧
    CliffWalk.ActorCritic.init 48 4 0 = Except.ok ⟨48, 4, 0⟩ :=
  ⟨rfl, rfl⟩

/-- Claim C3 (amended): construction never validates its configuration —
`CliffWalking.__init__` takes no configuration arguments at all (the grid
shape is hardcoded to 4x12), and the network constructors accept every
dimension triple, including a zero hidden width, always returning
a constructed object rather than an error. -/
theorem constructors_never_reject (i o h : Nat) :
    CliffWalk.REINFORCE.init i o h = Except.ok ⟨i, o, h⟩ ∧
    CliffWalk.ActorCritic.init i o h = Except.ok ⟨i, o, h⟩ ∧
    CliffWalk.initEnv.pos = (CliffWalk.shapeRows - 1, 0) :=
  ⟨rfl, rfl, rfl⟩

/-- Claim C4: from every cliff cell (row 3, columns 1 through 10) and for
every action, the precomputed transition — and hence `take_action` taken
there — yields reward `-100`, next position `(3, 0)`, and terminal `false`. -/
theorem cliff_cell_transition_spec (j : Fin 10) (a : Fin 4) :
    CliffWalk.calNewPosition (3, j.val + 1) a.val =
      some { pos := (3, 0), reward := -100, term := false } ∧
    (CliffWalk.Env.takeAction
        { pos := (3, j.val + 1), transmit := CliffWalk.buildTransmitTensor }
        (.idx a.val)).map (fun r => r.1) =
      some { pos := (3, 0), reward := -100, term := false } := by
  revert j a
  decide

/-- Claim C5: from the goal cell `(3, 11)` and for every action, the
precomputed transition — and hence `take_action` taken at the goal — returns
next position `(3, 11)`, reward `0`, and terminal `true`. -/
theorem goal_cell_transition_spec (a : Fin 4) :
    CliffWalk.calNewPosition (3, 11) a.val =
      some { pos := (3, 11), reward := 0, term := true } ∧
    CliffWalk.Env.takeAction
        { pos := (3, 11), transmit := CliffWalk.buildTransmitTensor }
        (.idx a.val) =
      some ({ pos := (3, 11), reward := 0, term := true },
            { pos := (3, 11), transmit := CliffWalk.buildTransmitTensor }) := by
  revert a
  decide

/-- Claim C6: the backward accumulation of `REINFORCE.train_model` on rewards
`[-1, -1, -1, 0]` with masks `[1, 1, 1, 0]` and discount `1.0` produces the
return sequence `[-3, -2, -1, 0]`. -/
theorem returns_backward_accumulation_example :
    CliffWalk.computeReturns 1 [-1, -1, -1, 0] [1, 1, 1, 0] =
      [-3, -2, -1, 0] := by
  norm_num [CliffWalk.computeReturns]

/-- Claim C7: in `ActorCritic.train_model`, the TD target
`reward + mask * gamma * next_value` with `mask = 0` equals the immediate
reward exactly, for every discount and every next-state value estimate. -/
theorem td_target_terminal_is_reward (gamma reward next_value : ℚ) :
    CliffWalk.targetPlusValue gamma reward 0 next_value = reward := by
  unfold CliffWalk.targetPlusValue
  ring

/-- Claim C8: every transition stored in the table has an in-bounds next
position (row below 4, column below 12), and consequently, starting from the
freshly constructed environment, the position stays within grid bounds after
any sequence of `take_action` calls that completes without a raised error. -/
theorem transition_positions_in_bounds :
    (∀ (i j a : Nat) (out : CliffWalk.Outcome),
        CliffWalk.lookupTransition CliffWalk.buildTransmitTensor i j a =
          some out →
        CliffWalk.posInBounds out.pos) ∧
    (∀ (acts : List CliffWalk.ActionInput) (env' : CliffWalk.Env),
        CliffWalk.runOps CliffWalk.initEnv (acts.map CliffWalk.Op.act) =
          some env' →
        CliffWalk.posInBounds env'.pos) := by
  constructor
  · intro i j a out h
    exact CliffWalk.calNewPosition_pos_bounds (i, j) a out
      (CliffWalk.lookupTransition_build_some i j a out h).1
  · intro acts env' h
    exact (CliffWalk.runOps_preserves (acts.map CliffWalk.Op.act)
      CliffWalk.initEnv env' rfl (by decide) h).2

/-- Witness for C8: the freshly constructed environment after the empty call
sequence has its position `(3, 0)` within grid bounds. -/
theorem transition_positions_in_bounds_witness :
    CliffWalk.posInBounds CliffWalk.initEnv.pos :=
  transition_positions_in_bounds.2 [] CliffWalk.initEnv rfl

/-- Claim C9: `take_action` mutates only the position field — the successor
environment is the current one with `pos` replaced by the looked-up next
position — and after every sequence of `take_action` and `reset` calls that
completes, the transition table is unchanged from its value at
construction. -/
theorem transmit_tensor_immutable :
    (∀ (env : CliffWalk.Env) (a : CliffWalk.ActionInput)
        (out : CliffWalk.Outcome) (e : CliffWalk.Env),
        env.takeAction a = some (out, e) →
        e = { env with pos := out.pos }) ∧
    (∀ (ops : List CliffWalk.Op) (env' : CliffWalk.Env),
        CliffWalk.runOps CliffWalk.initEnv ops = some env' →
        env'.transmit = CliffWalk.initEnv.transmit) := by
  constructor
  · intro env a out e h
    exact (CliffWalk.takeAction_some_elim env a out e h).1
  · intro ops env' h
    exact CliffWalk.runOps_transmit ops CliffWalk.initEnv env' h

/-- Witness for C9: after the single call sequence `[reset]` the transition
table equals the one built at construction. -/
theorem transmit_tensor_immutable_witness :
    ({ pos := (CliffWalk.shapeRows - 1, 0),
       transmit := CliffWalk.buildTransmitTensor } : CliffWalk.Env).transmit =
      CliffWalk.initEnv.transmit :=
  transmit_tensor_immutable.2 [CliffWalk.Op.reset] _ rfl

/-- Claim C10: for every environment state, a string action resolved through
the `actions` dictionary behaves exactly like the corresponding integer
action: `take_action` returns the same triple and successor environment. -/
theorem string_int_action_equiv (env : CliffWalk.Env) (c : Char) (k : Nat)
    (h : CliffWalk.actions c = some k) :
    env.takeAction (.str c) = env.takeAction (.idx k) := by
  simp only [CliffWalk.Env.takeAction, CliffWalk.resolveAction, h]

/-- Witness for C10: at the freshly constructed environment, the string
action `'U'` (index `0` in the dictionary) agrees with integer action `0`. -/
theorem string_int_action_equiv_witness :
    CliffWalk.initEnv.takeAction (.str 'U') =
      CliffWalk.initEnv.takeAction (.idx 0) :=
  string_int_action_equiv CliffWalk.initEnv 'U' 0 rfl
